import Mathlib

set_option linter.unusedVariables false

/-!
Shallow embedding of `src/backend/gl/glx.c` (the GLX backend of the compton
compositor) and verification of the specified properties.

Machine-level conventions used throughout:
* C `int` attribute values returned by `glXGetFBConfigAttrib` are modelled as
  `Int`.
* Handles (X pixmaps, GLX pixmaps, GL texture names, contexts) are modelled as
  `Nat`, with `0` standing for the null handle, exactly as the C code tests
  them for truthiness.
* Calls into the X server / GL driver are modelled as events in an explicit
  trace, so that resource acquisition and release ordering can be stated.
-/

/-- Modelled from the spec: `OPENGL_MAX_DEPTH` is defined in a header that is
not part of this source tree; the spec fixes the maximum table depth at 32
(`maxDepth = 32`), consistent with the in-file access `gd->fbconfigs[32]`. -/
def OPENGL_MAX_DEPTH : Int := 32

/-- Texture format constant stored in `glx_fbconfig_t.texture_fmt`
(`GLX_TEXTURE_FORMAT_*_EXT` in the C code). -/
inductive TexFmt where
  | fmtNone
  | fmtRGB
  | fmtRGBA
deriving DecidableEq, Repr

/-- Driver-reported integer attributes of one `GLXFBConfig` handle. This
structure stands for the opaque `GLXFBConfig` pointer together with the values
that `glXGetFBConfigAttrib` returns for it (the C code re-queries the driver
through the handle; here the handle carries its attribute values). -/
structure FBConfigAttrs where
  redSize : Int
  bindRgba : Int
  bindRgb : Int
  doublebuffer : Int
  stencilSize : Int
  depthSize : Int
  bindMipmap : Int
  samples : Int
  yInverted : Int
deriving DecidableEq, Repr

/-- Embedding of `glx_fbconfig_t`: wrapper of a GLX FBConfig (`cfg` plus the
cached fields `texture_fmt`, `texture_tgts`, `y_inverted`). -/
structure glx_fbconfig_t where
  cfg : FBConfigAttrs
  texture_fmt : TexFmt
  texture_tgts : Nat
  y_inverted : Bool
deriving DecidableEq, Repr

/-- The depth-indexed FBConfig table `gd->fbconfigs`, a null-initialized array
of owning pointers, modelled as a total map to `Option`. -/
abbrev FBConfigTable := Int → Option glx_fbconfig_t

/-- The table of a freshly `ccalloc`ed `struct _glx_data`: every slot null. -/
def emptyFBConfigTable : FBConfigTable := fun _ => none

/-- Embedding of `glx_cmp_fbconfig_cmpattr`: query one attribute on both
configs and return the difference `attr_a - attr_b`. -/
def glx_cmp_fbconfig_cmpattr (attr : FBConfigAttrs → Int)
    (pfbc_a pfbc_b : glx_fbconfig_t) : Int :=
  attr pfbc_a.cfg - attr pfbc_b.cfg

/-- Body of `glx_cmp_fbconfig` once both arguments are non-null: the
"avoid 10-bit colors" red-size checks, then the fixed attribute chain
(`P_CMPATTR_LT` on RGBA-bind, doublebuffer, stencil size, depth size;
`P_CMPATTR_GT` on mipmap-bind). -/
def glx_cmp_fbconfig_nonnull (a b : glx_fbconfig_t) : Int :=
  if a.cfg.redSize ≠ 8 then -1
  else if b.cfg.redSize ≠ 8 then 1
  else if glx_cmp_fbconfig_cmpattr FBConfigAttrs.bindRgba a b ≠ 0 then
    -(glx_cmp_fbconfig_cmpattr FBConfigAttrs.bindRgba a b)
  else if glx_cmp_fbconfig_cmpattr FBConfigAttrs.doublebuffer a b ≠ 0 then
    -(glx_cmp_fbconfig_cmpattr FBConfigAttrs.doublebuffer a b)
  else if glx_cmp_fbconfig_cmpattr FBConfigAttrs.stencilSize a b ≠ 0 then
    -(glx_cmp_fbconfig_cmpattr FBConfigAttrs.stencilSize a b)
  else if glx_cmp_fbconfig_cmpattr FBConfigAttrs.depthSize a b ≠ 0 then
    -(glx_cmp_fbconfig_cmpattr FBConfigAttrs.depthSize a b)
  else if glx_cmp_fbconfig_cmpattr FBConfigAttrs.bindMipmap a b ≠ 0 then
    glx_cmp_fbconfig_cmpattr FBConfigAttrs.bindMipmap a b
  else 0

/-- Embedding of `glx_cmp_fbconfig`: compare two GLX FBConfigs to find the
preferred one. A null first argument loses (`-1`), a null second argument
loses (`1`), otherwise the non-null comparison chain runs. -/
def glx_cmp_fbconfig : Option glx_fbconfig_t → Option glx_fbconfig_t → Int
  | none, _ => -1
  | some _, none => 1
  | some a, some b => glx_cmp_fbconfig_nonnull a b

/-- Embedding of `glx_update_fbconfig_bydepth`: update the FBConfig of a
given depth. Returns the new table together with the list of table indices the
call read or wrote (empty when the depth sanity check rejects the call). -/
def glx_update_fbconfig_bydepth (table : FBConfigTable) (depth : Int)
    (pfbcfg : glx_fbconfig_t) : FBConfigTable × List Int :=
  if depth < 0 ∨ OPENGL_MAX_DEPTH < depth then (table, [])
  else if glx_cmp_fbconfig (table depth) (some pfbcfg) < 0 then
    (fun i => if i = depth then some pfbcfg else table i, [depth])
  else (table, [depth])

/-- One enumerated FBConfig candidate as seen by `glx_update_fbconfig`: the
attributes of the underlying handle, plus the results of the four queries
whose failure makes the loop skip the candidate (`GLX_BUFFER_SIZE`,
`GLX_ALPHA_SIZE`, `GLX_BIND_TO_TEXTURE_TARGETS_EXT`, and
`glXGetVisualFromFBConfig`), with `none` standing for a failed query. -/
structure GLXCandidate where
  attrs : FBConfigAttrs
  bufferSize : Option Int
  alphaSize : Option Int
  textureTgts : Option Nat
  visualDepth : Option Int
deriving DecidableEq, Repr

/-- Body of the per-candidate loop of `glx_update_fbconfig`: skip multisampled
candidates and candidates with failed queries; compute the `rgb`/`rgba`
eligibility flags; register the candidate for depth `bufferSize - alphaSize`
with format RGB and/or for depth `bufferSize` with format RGBA. Returns the
updated table together with the list of `(depth, fbinfo)` registrations the
candidate submitted to `glx_update_fbconfig_bydepth`. -/
def glx_update_fbconfig_process (table : FBConfigTable) (c : GLXCandidate) :
    FBConfigTable × List (Int × glx_fbconfig_t) :=
  if 1 < c.attrs.samples then (table, [])
  else match c.bufferSize, c.alphaSize, c.textureTgts, c.visualDepth with
  | some depth, some depth_alpha, some tgts, some visualdepth =>
    let rgba : Bool :=
      decide (32 ≤ depth) && decide (depth_alpha ≠ 0) && decide (c.attrs.bindRgba ≠ 0)
    let rgb : Bool := decide (c.attrs.bindRgb ≠ 0)
    let fb0 : glx_fbconfig_t :=
      { cfg := c.attrs, texture_fmt := TexFmt.fmtNone, texture_tgts := tgts,
        y_inverted := decide (c.attrs.yInverted ≠ 0) }
    let tgtdpt := depth - depth_alpha
    let step1 :=
      if tgtdpt = visualdepth ∧ tgtdpt < 32 ∧ rgb = true then
        let fbinfo := { fb0 with texture_fmt := TexFmt.fmtRGB }
        ((glx_update_fbconfig_bydepth table tgtdpt fbinfo).1, [(tgtdpt, fbinfo)])
      else (table, [])
    if depth = visualdepth ∧ rgba = true then
      let fbinfo := { fb0 with texture_fmt := TexFmt.fmtRGBA }
      ((glx_update_fbconfig_bydepth step1.1 depth fbinfo).1, step1.2 ++ [(depth, fbinfo)])
    else step1
  | _, _, _, _ => (table, [])

/-- Embedding of `glx_update_fbconfig`: process every enumerated candidate,
then run the sanity checks. The result is `false` exactly when the final table
has no entry for the display's default depth `ps->depth`; a missing depth-32
entry only logs an error and does not affect the result. -/
def glx_update_fbconfig (table0 : FBConfigTable) (cands : List GLXCandidate)
    (default_depth : Int) : Bool × FBConfigTable :=
  let t := cands.foldl (fun tb c => (glx_update_fbconfig_process tb c).1) table0
  if (t default_depth).isNone then (false, t) else (true, t)

/-- GLX texture target bit `GLX_TEXTURE_2D_BIT_EXT` from the
`GLX_EXT_texture_from_pixmap` extension header. -/
def GLX_TEXTURE_2D_BIT_EXT : Nat := 2

/-- GLX texture target bit `GLX_TEXTURE_RECTANGLE_BIT_EXT` from the
`GLX_EXT_texture_from_pixmap` extension header. -/
def GLX_TEXTURE_RECTANGLE_BIT_EXT : Nat := 4

/-- GLX texture target enumerant `GLX_TEXTURE_2D_EXT`. -/
def GLX_TEXTURE_2D_EXT : Nat := 0x20DC

/-- GLX texture target enumerant `GLX_TEXTURE_RECTANGLE_EXT`. -/
def GLX_TEXTURE_RECTANGLE_EXT : Nat := 0x20DD

/-- GL texture target enumerant `GL_TEXTURE_2D`. -/
def GL_TEXTURE_2D : Nat := 0x0DE1

/-- GL texture target enumerant `GL_TEXTURE_RECTANGLE`. -/
def GL_TEXTURE_RECTANGLE : Nat := 0x84F5

/-- Embedding of `gl_texture_t` as used by this file (`texture` name,
`target`, snapshotted dimensions, `y_inverted`). -/
structure gl_texture_t where
  texture : Nat
  target : Nat
  width : Int
  height : Int
  y_inverted : Bool
deriving DecidableEq, Repr

/-- Embedding of `struct _glx_win_data`: the per-window texture binding. -/
structure glx_win_data where
  texture : gl_texture_t
  glpixmap : Nat
  pixmap : Nat
deriving DecidableEq, Repr

/-- Calls into the X server / GL driver made by the per-window lifecycle
paths, recorded as trace events. -/
inductive GLEvent where
  | bindTexture (target tex : Nat)
  | releaseTexImage (glpixmap : Nat)
  | destroyGLXPixmap (h : Nat)
  | deleteTexture (t : Nat)
  | freeXPixmap (p : Nat)
  | freeWinData
  | nameWindowPixmap (p : Nat)
  | createGLXPixmap (h : Nat)
  | genTexture (t : Nat)
deriving DecidableEq, Repr

/-- Embedding of `glx_release_pixmap`: if both the GLX pixmap and the texture
are valid, bind the texture, call `glXReleaseTexImage`, unbind; then destroy
the GLX pixmap if valid and null the field. Returns the updated window data
and the driver-call trace. -/
def glx_release_pixmap (wd : glx_win_data) : glx_win_data × List GLEvent :=
  let evs1 : List GLEvent :=
    if wd.glpixmap ≠ 0 ∧ wd.texture.texture ≠ 0 then
      [GLEvent.bindTexture wd.texture.target wd.texture.texture,
       GLEvent.releaseTexImage wd.glpixmap,
       GLEvent.bindTexture wd.texture.target 0]
    else []
  if wd.glpixmap ≠ 0 then
    ({ wd with glpixmap := 0 }, evs1 ++ [GLEvent.destroyGLXPixmap wd.glpixmap])
  else (wd, evs1)

/-- Embedding of `glx_release_win`: run `glx_release_pixmap`, delete the GL
texture object, free the `_glx_win_data` structure. The unused `win *w`
argument of the C function is not modelled (the function never reads it, and
in particular never consults `w->id` or `wd->pixmap` to free the X pixmap). -/
def glx_release_win (wd : glx_win_data) : List GLEvent :=
  (glx_release_pixmap wd).2 ++
    [GLEvent.deleteTexture wd.texture.texture, GLEvent.freeWinData]

/-- Teardown actions of `glx_deinit`, recorded as trace events. `winEvent`
wraps a per-window driver call, were the per-window hook to make any. -/
inductive DeinitEvent where
  | winEvent (w : Nat) (e : GLEvent)
  | freeBlurShader (i : Nat)
  | freeProgMain
  | freeFBConfig (depth : Int)
  | destroyContext
  | freeBackendData
deriving DecidableEq, Repr

/-- Embedding of `free_win_res_glx`: the entire body of the C function is
commented out (`free_paint_glx`, `free_glx_bc` calls), so the hook performs no
action and emits no events. -/
def free_win_res_glx (w : Nat) : List DeinitEvent := []

/-- Embedding of `glx_deinit`: iterate the window list through
`free_win_res_glx`, free the blur shaders and the main window-shader program,
free every FBConfig table slot for depths `0..OPENGL_MAX_DEPTH`, destroy the
GLX context if non-null, and free the backend data. `maxBlurPass` stands for
the `MAX_BLUR_PASS` constant defined outside this file. -/
def glx_deinit (windows : List Nat) (maxBlurPass : Nat) (ctx : Nat) :
    List DeinitEvent :=
  (windows.flatMap free_win_res_glx)
  ++ (List.range maxBlurPass).map DeinitEvent.freeBlurShader
  ++ [DeinitEvent.freeProgMain]
  ++ (List.range (OPENGL_MAX_DEPTH.toNat + 1)).map
      (fun i => DeinitEvent.freeFBConfig (i : Int))
  ++ (if ctx ≠ 0 then [DeinitEvent.destroyContext] else [])
  ++ [DeinitEvent.freeBackendData]

/-- Test whether a teardown event is a per-window driver call. -/
def isWinEvent : DeinitEvent → Bool
  | DeinitEvent.winEvent _ _ => true
  | _ => false

/-- The parts of `struct _glx_data` that `glx_prepare_win` reads: the FBConfig
table and the non-power-of-two-texture capability flag. -/
structure glx_data_prepare where
  fbconfigs : FBConfigTable
  non_power_of_two_texture : Bool

/-- The parts of the window object that `glx_prepare_win` reads: the drawable
id, the requested depth, and the buffer dimensions. -/
structure win_arg where
  id : Nat
  depth : Int
  widthb : Int
  heightb : Int
deriving DecidableEq, Repr

/-- Results the environment (X server and GL driver) hands back to
`glx_prepare_win`: the id `xcb_generate_id` produces, the handle
`glXCreatePixmap` returns, and the name `glGenTextures` returns
(`0` standing for failure in the latter two). -/
structure prepare_env where
  genPixmapId : Nat
  createGLXPixmapResult : Nat
  genTexturesResult : Nat
deriving DecidableEq, Repr

/-- Cleanup block at the `err:` label of `glx_prepare_win`: free the X pixmap
when it is non-null and not an alias of the window's own drawable id, destroy
the GLX pixmap when non-null, free the window data. -/
def glx_prepare_win_err (pixmap glpixmap wid : Nat) : List GLEvent :=
  (if pixmap ≠ 0 ∧ pixmap ≠ wid then [GLEvent.freeXPixmap pixmap] else [])
  ++ (if glpixmap ≠ 0 then [GLEvent.destroyGLXPixmap glpixmap] else [])
  ++ [GLEvent.freeWinData]

/-- Embedding of `glx_prepare_win`: reject depths above `OPENGL_MAX_DEPTH` and
depths with no registered FBConfig; choose a texture target; obtain a native
pixmap (a synthesized named pixmap when `ps->has_name_pixmap`, else the
window's own drawable id); create the GLX pixmap; generate and parameterize
the GL texture; on any failure run the `err:` cleanup and return null.
Returns the built window data (or `none`) and the driver-call trace. -/
def glx_prepare_win (gd : glx_data_prepare) (has_name_pixmap : Bool)
    (w : win_arg) (env : prepare_env) : Option glx_win_data × List GLEvent :=
  if OPENGL_MAX_DEPTH < w.depth then (none, [])
  else match gd.fbconfigs w.depth with
  | none => (none, [])
  | some pcfg =>
    let tex_tgt : Nat :=
      if GLX_TEXTURE_2D_BIT_EXT &&& pcfg.texture_tgts ≠ 0 ∧
          gd.non_power_of_two_texture then GLX_TEXTURE_2D_EXT
      else if GLX_TEXTURE_RECTANGLE_BIT_EXT &&& pcfg.texture_tgts ≠ 0 then
        GLX_TEXTURE_RECTANGLE_EXT
      else if GLX_TEXTURE_2D_BIT_EXT &&& pcfg.texture_tgts = 0 then
        GLX_TEXTURE_RECTANGLE_EXT
      else GLX_TEXTURE_2D_EXT
    let target : Nat :=
      if tex_tgt = GLX_TEXTURE_2D_EXT then GL_TEXTURE_2D else GL_TEXTURE_RECTANGLE
    let pixmap : Nat := if has_name_pixmap then env.genPixmapId else w.id
    let evs0 : List GLEvent :=
      if has_name_pixmap then [GLEvent.nameWindowPixmap env.genPixmapId] else []
    if pixmap = 0 then
      (none, evs0 ++ glx_prepare_win_err pixmap 0 w.id)
    else
      let glpixmap := env.createGLXPixmapResult
      let evs1 := evs0 ++ [GLEvent.createGLXPixmap glpixmap]
      if glpixmap = 0 then
        (none, evs1 ++ glx_prepare_win_err pixmap glpixmap w.id)
      else
        let texture := env.genTexturesResult
        let evs2 := evs1 ++ [GLEvent.genTexture texture]
        if texture = 0 then
          (none, evs2 ++ glx_prepare_win_err pixmap glpixmap w.id)
        else
          (some { texture := { texture := texture, target := target,
                               width := w.widthb, height := w.heightb,
                               y_inverted := pcfg.y_inverted },
                  glpixmap := glpixmap, pixmap := pixmap },
           evs2 ++ [GLEvent.bindTexture target texture,
                    GLEvent.bindTexture target 0])

/-- A pixman `pixman_box32_t` rectangle: top-left `(x1, y1)` and bottom-right
`(x2, y2)` corners. -/
structure rect_t where
  x1 : Int
  y1 : Int
  x2 : Int
  y2 : Int
deriving DecidableEq, Repr

/-- The per-rectangle body of the y-flip loop in `glx_compose`:
`y1` becomes `root_height - y2` and `y2` becomes `root_height - old y1`. -/
def glx_compose_flip_rect (root_height : Int) (r : rect_t) : rect_t :=
  { r with y1 := root_height - r.y2, y2 := root_height - r.y1 }

/-- Arguments `glx_compose` hands to the external drawing primitive
`gl_compose`: the bound texture, destination offsets, the window's buffer
dimensions, and the y-flipped clip region. -/
structure GLComposeCall where
  texture : gl_texture_t
  dst_x : Int
  dst_y : Int
  width : Int
  height : Int
  region : List rect_t
deriving DecidableEq, Repr

/-- Embedding of `glx_compose`: copy the clip region, flip the y extents of
every rectangle against `ps->root_height`, and call `gl_compose` with the
destination y translated from top-left to bottom-left convention
(`ps->root_height - dst_y - w->heightb`). -/
def glx_compose (root_height : Int) (tex : gl_texture_t)
    (w_widthb w_heightb : Int) (dst_x dst_y : Int) (region : List rect_t) :
    GLComposeCall :=
  { texture := tex
    dst_x := dst_x
    dst_y := root_height - dst_y - w_heightb
    width := w_widthb
    height := w_heightb
    region := region.map (glx_compose_flip_rect root_height) }

/-- Modelled from the spec: the `swap_method` configuration enumeration is
defined in a header outside this source tree; it includes at least a
buffer-age-tracking mode (`SWAPM_BUFFER_AGE`) among other modes. -/
inductive swap_method where
  | swapm_undefined
  | swapm_copy
  | swapm_exchange
  | swapm_buffer_age
deriving DecidableEq, Repr

/-- Conversion of a C `unsigned int` value to `int` by the cast `(int)val`,
under the universal two's-complement representation. -/
def int32_of_uint (n : Nat) : Int :=
  if n % 2 ^ 32 < 2 ^ 31 then ((n % 2 ^ 32 : Nat) : Int)
  else ((n % 2 ^ 32 : Nat) : Int) - 2 ^ 32

/-- Embedding of `glx_buffer_age`: when the configured swap method is
`SWAPM_BUFFER_AGE`, query `GLX_BACK_BUFFER_AGE_EXT` on the target drawable and
return `(int)val ?: -1`; otherwise return `-1` without querying.
`driver_age` is the unsigned value the driver writes. -/
def glx_buffer_age (sm : swap_method) (driver_age : Nat) : Int :=
  if sm = swap_method.swapm_buffer_age then
    if int32_of_uint driver_age ≠ 0 then int32_of_uint driver_age else -1
  else -1

/-! Concrete values used by counterexamples and witnesses. -/

/-- A config whose `GLX_RED_SIZE` is 10 and every other attribute zero. -/
def cfgRed10A : glx_fbconfig_t :=
  { cfg := { redSize := 10, bindRgba := 0, bindRgb := 0, doublebuffer := 0,
             stencilSize := 0, depthSize := 0, bindMipmap := 0, samples := 0,
             yInverted := 0 },
    texture_fmt := TexFmt.fmtNone, texture_tgts := 0, y_inverted := false }

/-- A second config with `GLX_RED_SIZE` 10, differing from `cfgRed10A` in its
doublebuffer attribute. -/
def cfgRed10B : glx_fbconfig_t :=
  { cfg := { redSize := 10, bindRgba := 0, bindRgb := 0, doublebuffer := 1,
             stencilSize := 0, depthSize := 0, bindMipmap := 0, samples := 0,
             yInverted := 0 },
    texture_fmt := TexFmt.fmtNone, texture_tgts := 0, y_inverted := false }

/-- A config with `GLX_RED_SIZE` 8 and every other attribute zero. -/
def cfgRed8 : glx_fbconfig_t :=
  { cfg := { redSize := 8, bindRgba := 0, bindRgb := 0, doublebuffer := 0,
             stencilSize := 0, depthSize := 0, bindMipmap := 0, samples := 0,
             yInverted := 0 },
    texture_fmt := TexFmt.fmtNone, texture_tgts := 0, y_inverted := false }

/-- A candidate that registers an RGB config for depth 24 (buffer size 24,
alpha size 0, visual depth 24, RGB-bind support). -/
def cand24 : GLXCandidate :=
  { attrs := { redSize := 8, bindRgba := 0, bindRgb := 1, doublebuffer := 0,
               stencilSize := 0, depthSize := 0, bindMipmap := 0, samples := 0,
               yInverted := 0 },
    bufferSize := some 24, alphaSize := some 0, textureTgts := some 0,
    visualDepth := some 24 }

/-- A candidate with buffer size 32 equal to its visual depth and driver RGBA
bind support, but zero alpha size. -/
def candNoAlpha : GLXCandidate :=
  { attrs := { redSize := 8, bindRgba := 1, bindRgb := 0, doublebuffer := 0,
               stencilSize := 0, depthSize := 0, bindMipmap := 0, samples := 0,
               yInverted := 0 },
    bufferSize := some 32, alphaSize := some 0, textureTgts := some 0,
    visualDepth := some 32 }

/-- A fully qualifying RGBA candidate: buffer size 32 equal to its visual
depth, nonzero alpha size, and driver RGBA bind support. -/
def candRGBA : GLXCandidate :=
  { attrs := { redSize := 8, bindRgba := 1, bindRgb := 0, doublebuffer := 0,
               stencilSize := 0, depthSize := 0, bindMipmap := 0, samples := 0,
               yInverted := 0 },
    bufferSize := some 32, alphaSize := some 8, textureTgts := some 4,
    visualDepth := some 32 }

/-- A fully-created binding whose native pixmap (handle 7) was synthesized,
hence owned: it differs from the window drawable id 5. -/
def wdLeak : glx_win_data :=
  { texture := { texture := 2, target := GL_TEXTURE_2D, width := 10,
                 height := 20, y_inverted := false },
    glpixmap := 3, pixmap := 7 }

/-- Backend data for the `glx_prepare_win` witness: one config at depth 24. -/
def gdPrepare : glx_data_prepare :=
  { fbconfigs := fun i => if i = 24 then some cfgRed8 else none,
    non_power_of_two_texture := true }

/-- Window argument for the `glx_prepare_win` witness: drawable id 5,
depth 24. -/
def wPrepare : win_arg := { id := 5, depth := 24, widthb := 10, heightb := 20 }

/-- Environment in which `xcb_generate_id` yields pixmap 7 and
`glXCreatePixmap` fails (returns the null handle). -/
def envBridgeFail : prepare_env :=
  { genPixmapId := 7, createGLXPixmapResult := 0, genTexturesResult := 0 }

/-- A bound texture with `y_inverted = false`, used by the compose scenario. -/
def texScenario : gl_texture_t :=
  { texture := 1, target := GL_TEXTURE_2D, width := 10, height := 20,
    y_inverted := false }

/-! # Theorems -/

/-- Step lemma for the comparator chain: one `P_CMPATTR_LT` level is
antisymmetric provided the rest of the chain is. -/
theorem cmp_chain_neg (x r₁ r₂ : Int) (h : r₁ = -r₂) :
    (if x ≠ 0 then -x else r₁) = -(if -x ≠ 0 then -(-x) else r₂) := by
  by_cases hx : x = 0
  · simp [hx, h]
  · have hx2 : ¬(-x = 0) := by omega
    simp [hx, hx2]

/-- Final step lemma for the comparator chain: the `P_CMPATTR_GT` level
followed by the 0 default is antisymmetric. -/
theorem cmp_chain_last (x : Int) :
    (if x ≠ 0 then x else 0) = -(if -x ≠ 0 then -x else (0 : Int)) := by
  by_cases hx : x = 0
  · simp [hx]
  · have hx2 : ¬(-x = 0) := by omega
    simp [hx, hx2]

/-- C3 counterexample: on two non-null configs that both have `redBits = 10`,
the comparator returns `-1` in both orders, so `cmp(A,B) = -cmp(B,A)` fails
even though neither argument hits the null-config special cases. -/
theorem glx_cmp_fbconfig_not_antisymmetric :
    glx_cmp_fbconfig (some cfgRed10A) (some cfgRed10B) = -1 ∧
    glx_cmp_fbconfig (some cfgRed10B) (some cfgRed10A) = -1 ∧
    glx_cmp_fbconfig (some cfgRed10A) (some cfgRed10B) ≠
      -glx_cmp_fbconfig (some cfgRed10B) (some cfgRed10A) := by
  decide

/-- C3 (amended): for non-null configs `A`, `B`, the ranking comparator
satisfies `cmp(A,B) = -cmp(B,A)` whenever at least one of the two has
`redBits = 8`; the only remaining non-null case, both configs failing the
10-bit-color exclusion, returns `-1` in both orders. -/
theorem glx_cmp_fbconfig_antisymmetric (a b : glx_fbconfig_t)
    (h : a.cfg.redSize = 8 ∨ b.cfg.redSize = 8) :
    glx_cmp_fbconfig (some a) (some b) = -glx_cmp_fbconfig (some b) (some a) := by
  show glx_cmp_fbconfig_nonnull a b = -glx_cmp_fbconfig_nonnull b a
  by_cases ha : a.cfg.redSize = 8 <;> by_cases hb : b.cfg.redSize = 8
  · have ha8 : ¬(a.cfg.redSize ≠ 8) := by simp [ha]
    have hb8 : ¬(b.cfg.redSize ≠ 8) := by simp [hb]
    have eR : ∀ f : FBConfigAttrs → Int,
        glx_cmp_fbconfig_cmpattr f b a = -(glx_cmp_fbconfig_cmpattr f a b) := by
      intro f
      unfold glx_cmp_fbconfig_cmpattr
      ring
    unfold glx_cmp_fbconfig_nonnull
    rw [if_neg ha8, if_neg hb8, if_neg hb8, if_neg ha8]
    simp only [eR]
    exact cmp_chain_neg _ _ _ (cmp_chain_neg _ _ _ (cmp_chain_neg _ _ _
      (cmp_chain_neg _ _ _ (cmp_chain_last _))))
  · have ha8 : ¬(a.cfg.redSize ≠ 8) := by simp [ha]
    unfold glx_cmp_fbconfig_nonnull
    rw [if_neg ha8, if_pos (show b.cfg.redSize ≠ 8 from hb),
      if_pos (show b.cfg.redSize ≠ 8 from hb)]
    norm_num
  · have hb8 : ¬(b.cfg.redSize ≠ 8) := by simp [hb]
    unfold glx_cmp_fbconfig_nonnull
    rw [if_pos (show a.cfg.redSize ≠ 8 from ha), if_neg hb8,
      if_pos (show a.cfg.redSize ≠ 8 from ha)]
  · rcases h with h | h
    · exact absurd h ha
    · exact absurd h hb

/-- C3 witness: the amended antisymmetry at a concrete pair of configs, one of
which has `redBits = 8`. -/
theorem glx_cmp_fbconfig_antisymmetric_witness :
    glx_cmp_fbconfig (some cfgRed8) (some cfgRed10A) =
      -glx_cmp_fbconfig (some cfgRed10A) (some cfgRed8) :=
  glx_cmp_fbconfig_antisymmetric cfgRed8 cfgRed10A (Or.inl (by decide))

/-- C4: for non-null configs, if the first argument has `redBits ≠ 8` the
comparator returns a negative result (the first loses), and if the first has
`redBits = 8` while the second has `redBits ≠ 8` it returns a positive result
(the second loses); so a config with `redBits ≠ 8` never wins against one with
`redBits = 8`. -/
theorem glx_cmp_fbconfig_red8_wins (a b : glx_fbconfig_t) :
    (a.cfg.redSize ≠ 8 → glx_cmp_fbconfig (some a) (some b) < 0) ∧
    (a.cfg.redSize = 8 → b.cfg.redSize ≠ 8 →
      0 < glx_cmp_fbconfig (some a) (some b)) := by
  constructor
  · intro h
    show glx_cmp_fbconfig_nonnull a b < 0
    unfold glx_cmp_fbconfig_nonnull
    rw [if_pos h]
    norm_num
  · intro ha hb
    show 0 < glx_cmp_fbconfig_nonnull a b
    have ha8 : ¬(a.cfg.redSize ≠ 8) := by simp [ha]
    unfold glx_cmp_fbconfig_nonnull
    rw [if_neg ha8, if_pos hb]
    norm_num

/-- C4 witness: at a concrete pair where exactly one config has `redBits = 8`,
both directions of the property hold. -/
theorem glx_cmp_fbconfig_red8_wins_witness :
    glx_cmp_fbconfig (some cfgRed10A) (some cfgRed8) < 0 ∧
    0 < glx_cmp_fbconfig (some cfgRed8) (some cfgRed10A) :=
  ⟨(glx_cmp_fbconfig_red8_wins cfgRed10A cfgRed8).1 (by decide),
   (glx_cmp_fbconfig_red8_wins cfgRed8 cfgRed10A).2 (by decide) (by decide)⟩


/-- C6: composing with a binding whose `y_inverted` is false flips every
rectangle of the clip region against the render target height
(`newTop = H - oldBottom`, `newBottom = H - oldTop`) and passes the drawing
primitive a destination y offset of `H - dst_y - heightb`. -/
theorem glx_compose_flips_region (root_height : Int) (tex : gl_texture_t)
    (w_widthb w_heightb dst_x dst_y : Int) (region : List rect_t)
    (hinv : tex.y_inverted = false) :
    (glx_compose root_height tex w_widthb w_heightb dst_x dst_y region).region =
      region.map (fun r => { r with y1 := root_height - r.y2,
                                    y2 := root_height - r.y1 }) ∧
    (glx_compose root_height tex w_widthb w_heightb dst_x dst_y region).dst_y =
      root_height - dst_y - w_heightb := by
  constructor
  · show region.map (glx_compose_flip_rect root_height) = _
    apply List.map_congr_left
    intro r hr
    rfl
  · rfl

/-- C6 witness: the spec scenario. Composing region `{(0,0)-(10,20)}` into a
target of height 100 with a non-inverted binding yields transformed region
`{(0,80)-(10,100)}`, and the destination y offset becomes `100 - 0 - 20`. -/
theorem glx_compose_flips_region_witness :
    (glx_compose 100 texScenario 10 20 0 0
        [{ x1 := 0, y1 := 0, x2 := 10, y2 := 20 }]).region =
      [{ x1 := 0, y1 := 80, x2 := 10, y2 := 100 }] ∧
    (glx_compose 100 texScenario 10 20 0 0
        [{ x1 := 0, y1 := 0, x2 := 10, y2 := 20 }]).dst_y = 80 := by
  have h := glx_compose_flips_region 100 texScenario 10 20 0 0
      [{ x1 := 0, y1 := 0, x2 := 10, y2 := 20 }] rfl
  refine ⟨?_, ?_⟩
  · rw [h.1]
    decide
  · rw [h.2]
    decide

/-- C8: `glx_buffer_age` returns the sentinel `-1` whenever the configured
swap method is not buffer-age tracking, regardless of the driver-reported
value; under buffer-age tracking it returns the sentinel for a zero reported
age and the reported age itself for a nonzero one (stated for ages
representable in a C `int`, since the code narrows the unsigned value with an
`(int)` cast). -/
theorem glx_buffer_age_spec (sm : swap_method) (driver_age : Nat) :
    (sm ≠ swap_method.swapm_buffer_age → glx_buffer_age sm driver_age = -1) ∧
    (sm = swap_method.swapm_buffer_age →
      (driver_age = 0 → glx_buffer_age sm driver_age = -1) ∧
      (driver_age ≠ 0 → driver_age < 2 ^ 31 →
        glx_buffer_age sm driver_age = (driver_age : Int))) := by
  constructor
  · intro h
    simp [glx_buffer_age, h]
  · intro h
    subst h
    constructor
    · intro h0
      simp [glx_buffer_age, h0, int32_of_uint]
    · intro h0 hlt
      have hmod : driver_age % 2 ^ 32 = driver_age :=
        Nat.mod_eq_of_lt (by omega)
      have hval : int32_of_uint driver_age = (driver_age : Int) := by
        unfold int32_of_uint
        rw [hmod]
        exact if_pos hlt
      have hne : (driver_age : Int) ≠ 0 := Int.natCast_ne_zero.mpr h0
      simp [glx_buffer_age, hval, hne]

/-- C8 witness: with swap method `copy` the driver-reported age 7 is ignored
and the sentinel is returned; with buffer-age tracking, age 0 yields the
sentinel and age 3 is returned as is. -/
theorem glx_buffer_age_spec_witness :
    glx_buffer_age swap_method.swapm_copy 7 = -1 ∧
    glx_buffer_age swap_method.swapm_buffer_age 0 = -1 ∧
    glx_buffer_age swap_method.swapm_buffer_age 3 = 3 :=
  ⟨(glx_buffer_age_spec swap_method.swapm_copy 7).1 (by decide),
   ((glx_buffer_age_spec swap_method.swapm_buffer_age 0).2 rfl).1 rfl,
   ((glx_buffer_age_spec swap_method.swapm_buffer_age 3).2 rfl).2
     (by decide) (by decide)⟩

/-- C9: after candidate enumeration, `glx_update_fbconfig` reports failure
exactly when the final table has no config for the display's default depth;
and in the spec scenario, a candidate registering only depth 24 with default
depth 24 makes selection succeed even though the depth-32 slot stays empty. -/
theorem glx_update_fbconfig_fails_iff_default_missing :
    (∀ (table0 : FBConfigTable) (cands : List GLXCandidate) (default_depth : Int),
      (glx_update_fbconfig table0 cands default_depth).1 = false ↔
        (glx_update_fbconfig table0 cands default_depth).2 default_depth = none) ∧
    ((glx_update_fbconfig emptyFBConfigTable [cand24] 24).1 = true ∧
     (glx_update_fbconfig emptyFBConfigTable [cand24] 24).2 32 = none) := by
  constructor
  · intro table0 cands default_depth
    unfold glx_update_fbconfig
    cases hh : cands.foldl
        (fun tb c => (glx_update_fbconfig_process tb c).1) table0 default_depth with
    | none => simp [hh]
    | some v => simp [hh]
  · constructor
    · decide
    · decide

/-- C10: for every depth outside `[0, OPENGL_MAX_DEPTH]`,
`glx_update_fbconfig_bydepth` returns the table unchanged and performs no
table access; and every table index it ever accesses lies in
`[0, OPENGL_MAX_DEPTH]`. -/
theorem glx_update_fbconfig_bydepth_bounds (depth : Int) (table : FBConfigTable)
    (pfbcfg : glx_fbconfig_t) :
    ((depth < 0 ∨ OPENGL_MAX_DEPTH < depth) →
      (glx_update_fbconfig_bydepth table depth pfbcfg).1 = table ∧
      (glx_update_fbconfig_bydepth table depth pfbcfg).2 = []) ∧
    (∀ i ∈ (glx_update_fbconfig_bydepth table depth pfbcfg).2,
      0 ≤ i ∧ i ≤ OPENGL_MAX_DEPTH) := by
  constructor
  · intro h
    unfold glx_update_fbconfig_bydepth
    rw [if_pos h]
    exact ⟨rfl, rfl⟩
  · intro i hi
    unfold glx_update_fbconfig_bydepth at hi
    by_cases h : depth < 0 ∨ OPENGL_MAX_DEPTH < depth
    · rw [if_pos h] at hi
      simp at hi
    · rw [if_neg h] at hi
      have hd : 0 ≤ depth ∧ depth ≤ OPENGL_MAX_DEPTH := by
        unfold OPENGL_MAX_DEPTH at h ⊢
        omega
      split_ifs at hi <;> simp at hi <;> subst hi <;> exact hd

/-- C10 witness: at the out-of-range depth 33, the table is returned unchanged
and no table index is accessed. -/
theorem glx_update_fbconfig_bydepth_bounds_witness :
    (glx_update_fbconfig_bydepth emptyFBConfigTable 33 cfgRed8).1 =
      emptyFBConfigTable ∧
    (glx_update_fbconfig_bydepth emptyFBConfigTable 33 cfgRed8).2 = [] :=
  (glx_update_fbconfig_bydepth_bounds 33 emptyFBConfigTable cfgRed8).1
    (by decide)

/-- C1: evaluation of the destroy path on a binding with an owned native
pixmap (pixmap 7, synthesized, distinct from the window drawable). The trace
shows that `glx_release_win` performs the release step, destroys the GLX
pixmap, deletes the GL texture, and frees the structure, but never frees the
owned X pixmap: no `xcb_free_pixmap` call occurs anywhere in the path. -/
theorem glx_release_win_leaks_owned_pixmap :
    glx_release_win wdLeak =
      [GLEvent.bindTexture GL_TEXTURE_2D 2, GLEvent.releaseTexImage 3,
       GLEvent.bindTexture GL_TEXTURE_2D 0, GLEvent.destroyGLXPixmap 3,
       GLEvent.deleteTexture 2, GLEvent.freeWinData] ∧
    GLEvent.freeXPixmap 7 ∉ glx_release_win wdLeak := by
  decide

/-- C2 counterexample: teardown with one live window binding produces no
per-window driver call at all — the trace is identical to tearing down with no
windows, so the live binding is not released via its destroy path. -/
theorem glx_deinit_releases_no_window :
    (glx_deinit [5] 1 1).filter isWinEvent = [] ∧
    glx_deinit [5] 1 1 = glx_deinit [] 1 1 := by
  decide

/-- C2 (amended): teardown iterates the window list through a hook that
performs no release (its body is commented out), then frees, in order: all
blur-shader resources and the main shader program, every depth-table entry for
depths `0..OPENGL_MAX_DEPTH`, the GPU context (when non-null), and the backend
data; the window list never contributes an event. -/
theorem glx_deinit_order (windows : List Nat) (maxBlurPass : Nat) (ctx : Nat) :
    glx_deinit windows maxBlurPass ctx =
      (List.range maxBlurPass).map DeinitEvent.freeBlurShader
      ++ [DeinitEvent.freeProgMain]
      ++ (List.range (OPENGL_MAX_DEPTH.toNat + 1)).map
          (fun i => DeinitEvent.freeFBConfig (i : Int))
      ++ (if ctx ≠ 0 then [DeinitEvent.destroyContext] else [])
      ++ [DeinitEvent.freeBackendData] := by
  unfold glx_deinit
  have h : windows.flatMap free_win_res_glx = [] := by
    induction windows with
    | nil => rfl
    | cons x xs ih =>
      rw [List.flatMap_cons, ih]
      rfl
  rw [h]
  rfl

/-- C5 counterexample: `candNoAlpha` satisfies the claimed qualification
condition (its buffer size 32 equals its visual depth, the driver reports
RGBA-bind support, and the buffer size is at least 32), yet the candidate loop
registers nothing at all — the `rgba` flag additionally requires a nonzero
alpha size, which this candidate lacks — so the depth-32 table slot stays
empty. -/
theorem glx_update_fbconfig_rgba_missing_alpha_clause :
    (candNoAlpha.bufferSize = candNoAlpha.visualDepth ∧
     candNoAlpha.attrs.bindRgba ≠ 0 ∧
     candNoAlpha.bufferSize = some 32) ∧
    (glx_update_fbconfig_process emptyFBConfigTable candNoAlpha).2 = [] ∧
    (glx_update_fbconfig_process emptyFBConfigTable candNoAlpha).1 32 = none := by
  decide

/-- C5 (amended): an enumerated candidate that survives the skip checks is
registered with format RGBA exactly when its buffer size equals the visual
depth, the buffer size is at least 32, its alpha size is nonzero, and the
driver reports RGBA-bind support; the registration is under depth
`bufferSize` with `texture_fmt = RGBA`. -/
theorem glx_update_fbconfig_rgba_qualification (table : FBConfigTable)
    (c : GLXCandidate) (depth depth_alpha : Int) (tgts : Nat)
    (visualdepth : Int)
    (hbuf : c.bufferSize = some depth) (halpha : c.alphaSize = some depth_alpha)
    (htgts : c.textureTgts = some tgts) (hvis : c.visualDepth = some visualdepth)
    (hsamp : ¬1 < c.attrs.samples) :
    (glx_update_fbconfig_process table c).2.filter
        (fun p => decide (p.2.texture_fmt = TexFmt.fmtRGBA)) =
      (if depth = visualdepth ∧ 32 ≤ depth ∧ depth_alpha ≠ 0 ∧
          c.attrs.bindRgba ≠ 0 then
        [(depth,
          { cfg := c.attrs, texture_fmt := TexFmt.fmtRGBA, texture_tgts := tgts,
            y_inverted := decide (c.attrs.yInverted ≠ 0) })]
       else []) := by
  unfold glx_update_fbconfig_process
  rw [if_neg hsamp, hbuf, halpha, htgts, hvis]
  dsimp only
  by_cases h1 : depth - depth_alpha = visualdepth ∧ depth - depth_alpha < 32 ∧
      decide (c.attrs.bindRgb ≠ 0) = true
  · rw [if_pos h1]
    by_cases h2 : depth = visualdepth ∧
        (decide (32 ≤ depth) && decide (depth_alpha ≠ 0) &&
          decide (c.attrs.bindRgba ≠ 0)) = true
    · rw [if_pos h2]
      rw [if_pos ?side]
      case side =>
        rcases h2 with ⟨h2a, h2b⟩
        simp only [Bool.and_eq_true, decide_eq_true_eq] at h2b
        exact ⟨h2a, h2b.1.1, h2b.1.2, h2b.2⟩
      simp [List.filter]
    · rw [if_neg h2]
      rw [if_neg ?side]
      case side =>
        intro hcontra
        rcases hcontra with ⟨hca, hcb, hcc, hcd⟩
        exact h2 ⟨hca, by simp [hcb, hcc, hcd]⟩
      simp [List.filter]
  · rw [if_neg h1]
    by_cases h2 : depth = visualdepth ∧
        (decide (32 ≤ depth) && decide (depth_alpha ≠ 0) &&
          decide (c.attrs.bindRgba ≠ 0)) = true
    · rw [if_pos h2]
      rw [if_pos ?side]
      case side =>
        rcases h2 with ⟨h2a, h2b⟩
        simp only [Bool.and_eq_true, decide_eq_true_eq] at h2b
        exact ⟨h2a, h2b.1.1, h2b.1.2, h2b.2⟩
      simp [List.filter]
    · rw [if_neg h2]
      rw [if_neg ?side]
      case side =>
        intro hcontra
        rcases hcontra with ⟨hca, hcb, hcc, hcd⟩
        exact h2 ⟨hca, by simp [hcb, hcc, hcd]⟩
      simp [List.filter]

/-- C5 witness: the fully qualifying candidate `candRGBA` (buffer size 32 =
visual depth, alpha size 8, RGBA-bind support) is registered under depth 32
with format RGBA. -/
theorem glx_update_fbconfig_rgba_qualification_witness :
    (glx_update_fbconfig_process emptyFBConfigTable candRGBA).2.filter
        (fun p => decide (p.2.texture_fmt = TexFmt.fmtRGBA)) =
      [(32,
        { cfg := candRGBA.attrs, texture_fmt := TexFmt.fmtRGBA,
          texture_tgts := 4, y_inverted := false })] := by
  have h := glx_update_fbconfig_rgba_qualification emptyFBConfigTable candRGBA
      32 8 4 32 rfl rfl rfl rfl (by decide)
  rw [h]
  decide

/-- Trace of `glx_prepare_win` when the GLX pixmap creation step fails: the
named pixmap is generated (when applicable), `glXCreatePixmap` returns the
null handle, and the `err:` cleanup runs with a null GLX pixmap. -/
theorem glx_prepare_win_bridge_fail_trace (gd : glx_data_prepare) (hnp : Bool)
    (w : win_arg) (env : prepare_env) (pcfg : glx_fbconfig_t)
    (hdepth : w.depth ≤ OPENGL_MAX_DEPTH)
    (hfb : gd.fbconfigs w.depth = some pcfg)
    (hpm : (if hnp then env.genPixmapId else w.id) ≠ 0)
    (hfail : env.createGLXPixmapResult = 0) :
    glx_prepare_win gd hnp w env =
      (none,
       ((if hnp then [GLEvent.nameWindowPixmap env.genPixmapId] else [])
         ++ [GLEvent.createGLXPixmap 0])
       ++ glx_prepare_win_err (if hnp then env.genPixmapId else w.id) 0 w.id) := by
  unfold glx_prepare_win
  rw [if_neg (not_lt.mpr hdepth), hfb]
  dsimp only
  rw [if_neg hpm, hfail]
  rw [if_pos rfl]

/-- C7: if `glx_prepare_win` reaches the GLX pixmap creation step and that
step fails (null handle), it returns null, frees the native pixmap exactly
when the pixmap differs from the window's own drawable id, generated no GL
texture, and created no non-null GLX pixmap; moreover, in every outcome, a
returned binding has both its GLX pixmap and its texture valid. -/
theorem glx_prepare_win_bridge_rollback (gd : glx_data_prepare) (hnp : Bool)
    (w : win_arg) (env : prepare_env) :
    (w.depth ≤ OPENGL_MAX_DEPTH → (gd.fbconfigs w.depth).isSome →
      (if hnp then env.genPixmapId else w.id) ≠ 0 →
      env.createGLXPixmapResult = 0 →
      (glx_prepare_win gd hnp w env).1 = none ∧
      (GLEvent.freeXPixmap (if hnp then env.genPixmapId else w.id) ∈
          (glx_prepare_win gd hnp w env).2 ↔
        (if hnp then env.genPixmapId else w.id) ≠ w.id) ∧
      (∀ t, GLEvent.genTexture t ∉ (glx_prepare_win gd hnp w env).2) ∧
      (∀ h, h ≠ 0 →
        GLEvent.createGLXPixmap h ∉ (glx_prepare_win gd hnp w env).2)) ∧
    (∀ wd, (glx_prepare_win gd hnp w env).1 = some wd →
      wd.glpixmap ≠ 0 ∧ wd.texture.texture ≠ 0) := by
  constructor
  · intro hdepth hfb hpm hfail
    obtain ⟨pcfg, hpcfg⟩ := Option.isSome_iff_exists.mp hfb
    rw [glx_prepare_win_bridge_fail_trace gd hnp w env pcfg hdepth hpcfg hpm hfail]
    refine ⟨rfl, ?_, ?_, ?_⟩
    · by_cases hpw : (if hnp then env.genPixmapId else w.id) = w.id <;>
        cases hnp <;> simp [glx_prepare_win_err, hpm, hpw] at hpm hpw ⊢ <;>
        simp [hpm, hpw]
    · intro t
      by_cases hpw : (if hnp then env.genPixmapId else w.id) = w.id <;>
        cases hnp <;> simp [glx_prepare_win_err, hpw] at hpm hpw ⊢
    · intro h hh
      by_cases hpw : (if hnp then env.genPixmapId else w.id) = w.id <;>
        cases hnp <;> simp [glx_prepare_win_err, hpw, hh] at hpm hpw ⊢
  · intro wd hwd
    unfold glx_prepare_win at hwd
    dsimp only at hwd
    repeat' split at hwd
    all_goals try exact Option.noConfusion hwd
    all_goals cases Option.some.inj hwd
    all_goals constructor <;> simp_all

/-- C7 witness: with a config registered for depth 24, a named pixmap 7 for
window drawable 5, and a failing `glXCreatePixmap`, the call returns null and
the owned pixmap 7 is freed. -/
theorem glx_prepare_win_bridge_rollback_witness :
    (glx_prepare_win gdPrepare true wPrepare envBridgeFail).1 = none ∧
    GLEvent.freeXPixmap 7 ∈ (glx_prepare_win gdPrepare true wPrepare envBridgeFail).2 := by
  have h := (glx_prepare_win_bridge_rollback gdPrepare true wPrepare
      envBridgeFail).1 (by decide) (by decide) (by decide) rfl
  exact ⟨h.1, h.2.1.mpr (by decide)⟩
